import Mathlib

/-!
Verification development for the due_ai spend-guardrail vault.

The vault state machine is implemented twice in the repository with intended
identical semantics:

* a capability-based variant, the Sui Move module vault::agent_vault
  (src/unnamed/part_009): agent authorization is an AgentCap object carrying
  a vault_id, balances live in a Bag keyed by coin type, policies are dynamic
  fields keyed by (agent cap id, coin type), and every assert! aborts the
  whole ledger transaction;
* an account-based variant, the Solidity contract AgentVault
  (src/smart_contracts/evm_vault/src/AgentVaultFactory.sol): agents are
  addresses in an activeAgents mapping, policies a nested mapping, and every
  revert rolls the transaction back.

Both are shallowly embedded below.  Machine integers (u64 on Sui, uint256 on
the EVM) do not wrap: both runtimes abort the transaction on arithmetic
overflow, so checked additions are modelled by addU64 / addU256 returning
none exactly when the mathematical sum does not fit, and that abort is the
distinguished error arithOverflow.  Coin balances themselves are modelled
with plain Nat addition: on Sui the total supply of a coin type fits in u64,
so Balance.join on vault balances cannot overflow in any reachable ledger
state, and ERC-20 balances are bounded by token supply likewise.

Ledger atomicity (abort commits nothing) is modelled by the Except result
type together with the commit / runOp wrappers: an error result leaves the
pre-state as the post-state, exactly as a Move abort or an EVM revert does.

External effects that are outside the vault code itself (the actual coin
object transfer to the recipient, ERC-20 transferFrom on deposit, the
native-ETH call, event emission) are not part of the vault state and are not
modelled; the tracked balance bookkeeping that the source performs around
them is modelled exactly.
-/

namespace DueVault

/-- Association-list lookup, used to model Sui dynamic fields, Bag contents
and Solidity mappings: the value stored at the key, if any. -/
def alookup {α β : Type} [DecidableEq α] (k : α) : List (α × β) → Option β
  | [] => none
  | e :: r => if e.1 = k then some e.2 else alookup k r

/-- Update the value stored at a key in place, appending a new entry when the
key is absent (Sui df add / borrow_mut, Bag add / join, Solidity map write). -/
def aset {α β : Type} [DecidableEq α] (k : α) (v : β) : List (α × β) → List (α × β)
  | [] => [(k, v)]
  | e :: r => if e.1 = k then (k, v) :: r else e :: aset k v r

/-- Remove a key (Sui df remove / Bag remove, Solidity delete).  Every state
the code builds has unique keys, so filtering is exact removal. -/
def aerase {α β : Type} [DecidableEq α] (k : α) (l : List (α × β)) : List (α × β) :=
  l.filter (fun e => decide (e.1 ≠ k))

/-- Balance of a token as the ledger reports it: 0 when no entry exists
(empty Bag slot, zero ERC-20 balance). -/
def agetD {α : Type} [DecidableEq α] (k : α) (l : List (α × Nat)) : Nat :=
  match alookup k l with
  | some n => n
  | none => 0

/-- First value above the u64 range. -/
def U64 : Nat := 18446744073709551616

/-- First value above the uint256 range. -/
def U256 : Nat := 2 ^ 256

/-- Checked u64 addition: Move aborts the transaction when a u64 sum
overflows, there is no wrap-around. -/
def addU64 (a b : Nat) : Option Nat :=
  if a + b < U64 then some (a + b) else none

/-- Checked uint256 addition: Solidity 0.8 reverts on overflow. -/
def addU256 (a b : Nat) : Option Nat :=
  if a + b < U256 then some (a + b) else none

/-- Error taxonomy shared by the two variants.  The module abort codes of the
Move variant and the custom errors of the Solidity variant correspond
one-to-one; arithOverflow is the runtime-level arithmetic abort (Move
arithmetic error, Solidity Panic 0x11), which is not one of the declared
error kinds of either contract. -/
inductive VErr where
  | notOwner
  | notAuthorized
  | noPolicySet
  | vaultPaused
  | exceedsMaxPerTx
  | exceedsPeriodLimit
  | exceedsTxCount
  | insufficientBalance
  | agentAlreadyActive
  | zeroAmount
  | agentNotActive
  | zeroAddress
  | ethTransferFailed
  | arithOverflow
  deriving DecidableEq, Repr

instance {ε α : Type} [DecidableEq ε] [DecidableEq α] : DecidableEq (Except ε α) :=
  fun x y =>
    match x, y with
    | .ok a, .ok b =>
      if h : a = b then .isTrue (by rw [h]) else .isFalse (fun hc => h (Except.ok.inj hc))
    | .ok _, .error _ => .isFalse (fun hc => Except.noConfusion hc)
    | .error _, .ok _ => .isFalse (fun hc => Except.noConfusion hc)
    | .error e, .error f =>
      if h : e = f then .isTrue (by rw [h]) else .isFalse (fun hc => h (Except.error.inj hc))

/-- SpendPolicy of the Move variant (all fields u64). -/
structure SpendPolicy where
  max_per_tx : Nat
  total_per_period : Nat
  max_tx_per_period : Nat
  period_ms : Nat
  period_start_ms : Nat
  spent_this_period : Nat
  tx_count_this_period : Nat
  deriving DecidableEq, Repr

/-- OwnerCap: unforgeable owner capability bound to one vault. -/
structure OwnerCap where
  vault_id : Nat
  deriving DecidableEq, Repr

/-- AgentCap: unforgeable agent capability; id is the object id that
add_agent registered, vault_id the vault it is bound to. -/
structure AgentCap where
  id : Nat
  vault_id : Nat
  deriving DecidableEq, Repr

/-- The shared Vault object of the Move variant.  balances models the Bag of
Balance values keyed by coin type, active_agents the VecSet of agent cap
ids, policies the dynamic fields keyed by PolicyKey (agent id, coin type). -/
structure Vault where
  id : Nat
  owner : Nat
  balances : List (Nat × Nat)
  active_agents : List Nat
  paused : Bool
  created_at : Nat
  policies : List ((Nat × Nat) × SpendPolicy)
  deriving DecidableEq, Repr

/-- vault::agent_vault::create_vault: fresh shared vault plus its OwnerCap. -/
def create_vault (sender vid now : Nat) : Vault × OwnerCap :=
  ({ id := vid, owner := sender, balances := [], active_agents := [],
     paused := false, created_at := now, policies := [] },
   { vault_id := vid })

/-- vault::agent_vault::deposit.  The source checks only the owner cap
binding and then joins the coin into the Bag; it has no zero-amount check,
and depositing a coin of a type not yet present adds a fresh Bag entry
(even a zero one). -/
def deposit (v : Vault) (ocap : OwnerCap) (token amount : Nat) : Except VErr Vault :=
  if ocap.vault_id = v.id then
    match alookup token v.balances with
    | some bal => .ok { v with balances := aset token (bal + amount) v.balances }
    | none => .ok { v with balances := aset token amount v.balances }
  else .error .notOwner

/-- vault::agent_vault::withdraw: owner only, positive amount, sufficient
balance; a balance drained to exactly zero is removed from the Bag for the
storage rebate. -/
def withdraw (v : Vault) (ocap : OwnerCap) (token amount : Nat) : Except VErr Vault :=
  if ocap.vault_id = v.id then
    if 0 < amount then
      match alookup token v.balances with
      | none => .error .insufficientBalance
      | some bal =>
        if amount ≤ bal then
          if bal - amount = 0 then .ok { v with balances := aerase token v.balances }
          else .ok { v with balances := aset token (bal - amount) v.balances }
        else .error .insufficientBalance
    else .error .zeroAmount
  else .error .notOwner

/-- vault::agent_vault::add_agent: mints a fresh AgentCap object bound to
this vault and registers its (globally fresh) object id in active_agents.
fresh_id stands for the id of the newly created object; Sui guarantees it
differs from every id ever created.  The cap is transferred to agent_addr,
modelled by returning it.  Note the EAgentAlreadyActive assert tests the
fresh id, not the agent address: the address is only recorded in the event. -/
def add_agent (v : Vault) (ocap : OwnerCap) (agent_addr fresh_id : Nat) :
    Except VErr (Vault × AgentCap) :=
  if ocap.vault_id = v.id then
    let cap : AgentCap := { id := fresh_id, vault_id := v.id }
    if fresh_id ∈ v.active_agents then .error .agentAlreadyActive
    else .ok ({ v with active_agents := fresh_id :: v.active_agents }, cap)
  else .error .notOwner

/-- vault::agent_vault::remove_agent: drops the agent id from active_agents;
policy records are left untouched. -/
def remove_agent (v : Vault) (ocap : OwnerCap) (agent_id : Nat) : Except VErr Vault :=
  if ocap.vault_id = v.id then
    if agent_id ∈ v.active_agents then
      .ok { v with active_agents := v.active_agents.filter (fun a => decide (a ≠ agent_id)) }
    else .error .agentNotActive
  else .error .notOwner

/-- vault::agent_vault::set_spend_policy: owner only, agent must be active;
the stored record is replaced wholesale with fresh counters and
period_start_ms = now. -/
def set_spend_policy (v : Vault) (ocap : OwnerCap) (agent_id token : Nat)
    (max_per_tx total_per_period max_tx_per_period period_ms now : Nat) :
    Except VErr Vault :=
  if ocap.vault_id = v.id then
    if agent_id ∈ v.active_agents then
      let pol : SpendPolicy :=
        { max_per_tx := max_per_tx
          total_per_period := total_per_period
          max_tx_per_period := max_tx_per_period
          period_ms := period_ms
          period_start_ms := now
          spent_this_period := 0
          tx_count_this_period := 0 }
      .ok { v with policies := aset (agent_id, token) pol v.policies }
    else .error .agentNotActive
  else .error .notOwner

/-- vault::agent_vault::remove_spend_policy. -/
def remove_spend_policy (v : Vault) (ocap : OwnerCap) (agent_id token : Nat) :
    Except VErr Vault :=
  if ocap.vault_id = v.id then
    match alookup (agent_id, token) v.policies with
    | some _ => .ok { v with policies := aerase (agent_id, token) v.policies }
    | none => .error .noPolicySet
  else .error .notOwner

/-- vault::agent_vault::pause. -/
def pause (v : Vault) (ocap : OwnerCap) : Except VErr Vault :=
  if ocap.vault_id = v.id then .ok { v with paused := true } else .error .notOwner

/-- vault::agent_vault::unpause. -/
def unpause (v : Vault) (ocap : OwnerCap) : Except VErr Vault :=
  if ocap.vault_id = v.id then .ok { v with paused := false } else .error .notOwner

/-- vault::agent_vault::execute_payment, assert by assert in source order:
pause flag, cap bound to this vault, cap id in active_agents, amount
positive, policy present, lazy period rollover, per-tx limit, period total,
tx count, balance present and sufficient; then the split (with the
empty-balance storage rebate) and the counter increments.  The u64 sums the
source evaluates inside its conditions go through addU64, since Move aborts
on overflow while computing them. -/
def execute_payment (v : Vault) (cap : AgentCap) (token recipient amount now : Nat) :
    Except VErr Vault :=
  if v.paused then .error .vaultPaused
  else if cap.vault_id = v.id then
    if cap.id ∈ v.active_agents then
      if 0 < amount then
        match alookup (cap.id, token) v.policies with
        | none => .error .noPolicySet
        | some p0 =>
          match addU64 p0.period_start_ms p0.period_ms with
          | none => .error .arithOverflow
          | some deadline =>
            let reset : SpendPolicy :=
              { p0 with
                spent_this_period := 0
                tx_count_this_period := 0
                period_start_ms := now }
            let p := if deadline ≤ now then reset else p0
            if amount ≤ p.max_per_tx then
              match addU64 p.spent_this_period amount with
              | none => .error .arithOverflow
              | some spent2 =>
                if spent2 ≤ p.total_per_period then
                  match addU64 p.tx_count_this_period 1 with
                  | none => .error .arithOverflow
                  | some cnt2 =>
                    if cnt2 ≤ p.max_tx_per_period then
                      match alookup token v.balances with
                      | none => .error .insufficientBalance
                      | some bal =>
                        if amount ≤ bal then
                          let bal2 :=
                            if bal - amount = 0 then aerase token v.balances
                            else aset token (bal - amount) v.balances
                          let p2 : SpendPolicy :=
                            { p with
                              spent_this_period := spent2
                              tx_count_this_period := cnt2 }
                          .ok { v with
                                balances := bal2
                                policies := aset (cap.id, token) p2 v.policies }
                        else .error .insufficientBalance
                    else .error .exceedsTxCount
                else .error .exceedsPeriodLimit
            else .error .exceedsMaxPerTx
      else .error .zeroAmount
    else .error .notAuthorized
  else .error .notAuthorized

/-- SpendPolicy of the Solidity variant (all fields uint256; the exists flag
of the source struct is modelled by presence in the policies list, which is
what the flag tracks). -/
structure EvmPolicy where
  maxPerTx : Nat
  totalPerPeriod : Nat
  maxTxPerPeriod : Nat
  periodSeconds : Nat
  periodStart : Nat
  spentThisPeriod : Nat
  txCountThisPeriod : Nat
  deriving DecidableEq, Repr

/-- State of one AgentVault contract instance.  balances models the token
holdings the contract observes via balanceOf / address(this).balance; the
two transfer branches of the source (native ETH sentinel vs ERC-20) perform
the same check-then-transfer on that observed balance and are modelled
uniformly. -/
structure EvmVault where
  owner : Nat
  paused : Bool
  activeAgents : List Nat
  policies : List ((Nat × Nat) × EvmPolicy)
  balances : List (Nat × Nat)
  deriving DecidableEq, Repr

/-- AgentVault.deposit / depositETH: onlyOwner, zero amount rejected, funds
pulled into the vault.  The external transferFrom is assumed funded: its
failure modes belong to the token contract, not to the vault. -/
def evmDeposit (v : EvmVault) (sender token amount : Nat) : Except VErr EvmVault :=
  if sender = v.owner then
    if amount = 0 then .error .zeroAmount
    else .ok { v with balances := aset token (agetD token v.balances + amount) v.balances }
  else .error .notOwner

/-- AgentVault.addAgent: onlyOwner, zero address rejected, then the
active-vs-revoked registry check. -/
def evmAddAgent (v : EvmVault) (sender agent : Nat) : Except VErr EvmVault :=
  if sender = v.owner then
    if agent = 0 then .error .zeroAddress
    else if agent ∈ v.activeAgents then .error .agentAlreadyActive
    else .ok { v with activeAgents := agent :: v.activeAgents }
  else .error .notOwner

/-- AgentVault.removeAgent: policy data remains but is unenforceable. -/
def evmRemoveAgent (v : EvmVault) (sender agent : Nat) : Except VErr EvmVault :=
  if sender = v.owner then
    if agent ∈ v.activeAgents then
      .ok { v with activeAgents := v.activeAgents.filter (fun a => decide (a ≠ agent)) }
    else .error .agentNotActive
  else .error .notOwner

/-- AgentVault.setSpendPolicy: onlyOwner, active agent required, full
overwrite with periodStart = block.timestamp and zeroed counters. -/
def evmSetSpendPolicy (v : EvmVault) (sender agent token : Nat)
    (maxPerTx totalPerPeriod maxTxPerPeriod periodSeconds now : Nat) :
    Except VErr EvmVault :=
  if sender = v.owner then
    if agent ∈ v.activeAgents then
      let pol : EvmPolicy :=
        { maxPerTx := maxPerTx
          totalPerPeriod := totalPerPeriod
          maxTxPerPeriod := maxTxPerPeriod
          periodSeconds := periodSeconds
          periodStart := now
          spentThisPeriod := 0
          txCountThisPeriod := 0 }
      .ok { v with policies := aset (agent, token) pol v.policies }
    else .error .agentNotActive
  else .error .notOwner

/-- AgentVault.executePayment.  Modifier order is whenNotPaused then
onlyActiveAgent (nonReentrant only toggles the lock; a single top-level call
as modelled here always finds it free); the body then checks zero amount,
zero recipient, policy presence, does the lazy rollover, the three limit
checks, the balance check, transfers, and updates the counters.  uint256
sums go through addU256 since Solidity 0.8 reverts on overflow. -/
def evmExecutePayment (v : EvmVault) (sender token recipient amount now : Nat) :
    Except VErr EvmVault :=
  if v.paused then .error .vaultPaused
  else if sender ∈ v.activeAgents then
    if amount = 0 then .error .zeroAmount
    else if recipient = 0 then .error .zeroAddress
    else
      match alookup (sender, token) v.policies with
      | none => .error .noPolicySet
      | some p0 =>
        match addU256 p0.periodStart p0.periodSeconds with
        | none => .error .arithOverflow
        | some deadline =>
          let reset : EvmPolicy :=
            { p0 with
              spentThisPeriod := 0
              txCountThisPeriod := 0
              periodStart := now }
          let p := if deadline ≤ now then reset else p0
          if p.maxPerTx < amount then .error .exceedsMaxPerTx
          else
            match addU256 p.spentThisPeriod amount with
            | none => .error .arithOverflow
            | some spent2 =>
              if p.totalPerPeriod < spent2 then .error .exceedsPeriodLimit
              else
                match addU256 p.txCountThisPeriod 1 with
                | none => .error .arithOverflow
                | some cnt2 =>
                  if p.maxTxPerPeriod < cnt2 then .error .exceedsTxCount
                  else if agetD token v.balances < amount then .error .insufficientBalance
                  else
                    let p2 : EvmPolicy :=
                      { p with
                        spentThisPeriod := spent2
                        txCountThisPeriod := cnt2 }
                    .ok { v with
                          balances := aset token (agetD token v.balances - amount) v.balances
                          policies := aset (sender, token) p2 v.policies }
  else .error .notAuthorized

/-- One mutating entry point of the Move vault, with its arguments. -/
inductive VOp where
  | opDeposit (ocap : OwnerCap) (token amount : Nat)
  | opWithdraw (ocap : OwnerCap) (token amount : Nat)
  | opAddAgent (ocap : OwnerCap) (agentAddr freshId : Nat)
  | opRemoveAgent (ocap : OwnerCap) (agentId : Nat)
  | opSetSpendPolicy (ocap : OwnerCap) (agentId token maxPerTx total maxTx periodMs now : Nat)
  | opRemoveSpendPolicy (ocap : OwnerCap) (agentId token : Nat)
  | opPause (ocap : OwnerCap)
  | opUnpause (ocap : OwnerCap)
  | opExecutePayment (cap : AgentCap) (token recipient amount now : Nat)
  deriving DecidableEq, Repr

/-- Ledger-transaction semantics of a call result: an abort rolls the whole
transaction back, so the pre-state stands. -/
def commit (v : Vault) (r : Except VErr Vault) : Vault :=
  match r with
  | .ok v2 => v2
  | .error _ => v

/-- The state after one ledger transaction invoking the given entry point. -/
def runOp (v : Vault) (op : VOp) : Vault :=
  match op with
  | .opDeposit oc t a => commit v (deposit v oc t a)
  | .opWithdraw oc t a => commit v (withdraw v oc t a)
  | .opAddAgent oc ad f =>
    match add_agent v oc ad f with
    | .ok (v2, _) => v2
    | .error _ => v
  | .opRemoveAgent oc aid => commit v (remove_agent v oc aid)
  | .opSetSpendPolicy oc aid t a b c d n => commit v (set_spend_policy v oc aid t a b c d n)
  | .opRemoveSpendPolicy oc aid t => commit v (remove_spend_policy v oc aid t)
  | .opPause oc => commit v (pause v oc)
  | .opUnpause oc => commit v (unpause v oc)
  | .opExecutePayment cap t r a n => commit v (execute_payment v cap t r a n)

/-- The state after a sequence of ledger transactions. -/
def runOps (v : Vault) : List VOp → Vault
  | [] => v
  | op :: rest => runOps (runOp v op) rest

/-- Whether an operation is an add_agent call whose freshly minted
authorization gets exactly this id, i.e. a re-activation of the id. -/
def mintsAgentId (op : VOp) (aid : Nat) : Bool :=
  match op with
  | .opAddAgent _ _ f => f = aid
  | _ => false

/-- Modelled from the spec: the ordered precondition list of section 4.1 /
claim C1, word for word, with exact arithmetic as the spec prescribes
(paused, authorization bound to this vault, agent active, amount positive,
policy present, lazy rollover, amount within maxPerTx, period total, tx
count, sufficient balance); returns the first failure, none when all pass. -/
def specFirstFailure (v : Vault) (cap : AgentCap) (token amount now : Nat) :
    Option VErr :=
  if v.paused then some .vaultPaused
  else if cap.vault_id = v.id then
    if cap.id ∈ v.active_agents then
      if 0 < amount then
        match alookup (cap.id, token) v.policies with
        | none => some .noPolicySet
        | some p0 =>
          let reset : SpendPolicy :=
            { p0 with
              spent_this_period := 0
              tx_count_this_period := 0
              period_start_ms := now }
          let p := if p0.period_start_ms + p0.period_ms ≤ now then reset else p0
          if amount ≤ p.max_per_tx then
            if p.spent_this_period + amount ≤ p.total_per_period then
              if p.tx_count_this_period + 1 ≤ p.max_tx_per_period then
                if amount ≤ agetD token v.balances then none
                else some .insufficientBalance
              else some .exceedsTxCount
            else some .exceedsPeriodLimit
          else some .exceedsMaxPerTx
      else some .zeroAmount
    else some .notAuthorized
  else some .notAuthorized

/-- The error of an aborted call, none for a successful one. -/
def errOf {α : Type} (r : Except VErr α) : Option VErr :=
  match r with
  | .ok _ => none
  | .error e => some e

/-- Largest u64 value, usable as an owner-chosen policy parameter. -/
def U64MAX : Nat := 18446744073709551615

/-- Concrete policy with period_start_ms + period_ms = 2 ^ 64, the overflow
point of the u64 addition the lazy rollover evaluates; reachable by calling
set_spend_policy at clock time 1 with period_ms = u64 max. -/
def cxPol : SpendPolicy :=
  { max_per_tx := 5
    total_per_period := 100
    max_tx_per_period := 10
    period_ms := U64MAX
    period_start_ms := 1
    spent_this_period := 0
    tx_count_this_period := 0 }

/-- Concrete vault holding cxPol for agent 1 on asset 0, with an empty
balance Bag, so that a call with amount 7 violates both the per-tx limit
(7 > 5) and the balance check (0 < 7). -/
def cxV : Vault :=
  { id := 1, owner := 5, balances := [], active_agents := [1], paused := false,
    created_at := 0, policies := [((1, 0), cxPol)] }

/-- The same vault with an overflow-free policy (period_ms small). -/
def wV : Vault :=
  { cxV with policies := [((1, 0), { cxPol with period_ms := 1000, period_start_ms := 0 })] }

/-- Agent capability bound to vault 1 with registered id 1. -/
def cap1 : AgentCap := { id := 1, vault_id := 1 }

/-- A second vault (id 2) on which agent id 1 happens to be active, used for
the cross-vault authorization statements. -/
def vaultB : Vault :=
  { id := 2, owner := 6, balances := [(0, 100)], active_agents := [1],
    paused := false, created_at := 0, policies := [] }

/-- The same second vault, paused. -/
def vaultBPaused : Vault := { vaultB with paused := true }

/-- Owner capability of vault 1. -/
def oc1 : OwnerCap := { vault_id := 1 }

/-- Vault 1 with agent id 7 active and a policy and balance in place for it. -/
def c3V : Vault :=
  { id := 1, owner := 5, balances := [(0, 1000)], active_agents := [7],
    paused := false, created_at := 0,
    policies := [((7, 0), { cxPol with period_ms := 1000, period_start_ms := 0 })] }

/-- c3V after remove_agent for id 7 (the policy record survives). -/
def c3V1 : Vault := { c3V with active_agents := [] }

/-- c3V1 after the owner pauses the vault. -/
def c3V2 : Vault := { c3V1 with paused := true }

/-- Agent capability for id 7 bound to vault 1. -/
def cap7 : AgentCap := { id := 7, vault_id := 1 }

/-- Policy whose window (length 10 ms starting at 0) has lapsed by time 10,
with stale counters sitting exactly at the period limits. -/
def c5Pol : SpendPolicy :=
  { max_per_tx := 1000
    total_per_period := 5000
    max_tx_per_period := 10
    period_ms := 10
    period_start_ms := 0
    spent_this_period := 5000
    tx_count_this_period := 5 }

/-- Vault 1 funded with 10000 of asset 0, agent 1 active under c5Pol. -/
def c5V : Vault :=
  { id := 1, owner := 5, balances := [(0, 10000)], active_agents := [1],
    paused := false, created_at := 0, policies := [((1, 0), c5Pol)] }

/-- The committed state of the rollover payment of 1000 at time 10 on c5V. -/
def c5V2 : Vault := commit c5V (execute_payment c5V cap1 0 9 1000 10)

/-- Scenario 1 build-up: fresh vault, deposit 10000 of asset 0, add agent
cap 42, set the policy maxPerTx 1000 / totalPerPeriod 5000 /
maxTxPerPeriod 10 / period 30 days (2592000000 ms) at time 0. -/
def scnV0 : Vault := (create_vault 5 1 0).1

/-- Scenario state after the 10000 deposit. -/
def scnV1 : Vault := commit scnV0 (deposit scnV0 oc1 0 10000)

/-- Scenario state after add_agent minted cap id 42 for address 77. -/
def scnV2 : Vault := runOp scnV1 (.opAddAgent oc1 77 42)

/-- Scenario state after the policy is set. -/
def scnV3 : Vault := commit scnV2 (set_spend_policy scnV2 oc1 42 0 1000 5000 10 2592000000 0)

/-- The scenario agent's capability. -/
def scnCap : AgentCap := { id := 42, vault_id := 1 }

/-- Scenario states after payments one to five of 1000 each at time 0. -/
def scnV4 : Vault := commit scnV3 (execute_payment scnV3 scnCap 0 9 1000 0)

/-- Scenario state after payment two. -/
def scnV5 : Vault := commit scnV4 (execute_payment scnV4 scnCap 0 9 1000 0)

/-- Scenario state after payment three. -/
def scnV6 : Vault := commit scnV5 (execute_payment scnV5 scnCap 0 9 1000 0)

/-- Scenario state after payment four. -/
def scnV7 : Vault := commit scnV6 (execute_payment scnV6 scnCap 0 9 1000 0)

/-- Scenario state after payment five. -/
def scnV8 : Vault := commit scnV7 (execute_payment scnV7 scnCap 0 9 1000 0)

/-- EVM vault owned by 5 with agent address 3 active. -/
def evW : EvmVault :=
  { owner := 5, paused := false, activeAgents := [3], policies := [],
    balances := [(7, 100)] }

/-- The same EVM vault, paused. -/
def evWPaused : EvmVault := { evW with paused := true }

/-- Move vault on which agent address 77 already holds the active
capability id 10 (as minted by an earlier add_agent for 77). -/
def c7V : Vault :=
  { id := 1, owner := 5, balances := [], active_agents := [10],
    paused := false, created_at := 0, policies := [] }

/-- Move vault with agent id 4 active and a stale policy record carrying
nonzero usage counters, about to be overwritten. -/
def c9V : Vault :=
  { id := 1, owner := 5, balances := [], active_agents := [4],
    paused := false, created_at := 0,
    policies := [((4, 0), c5Pol)] }

/-- EVM vault with agent address 4 active and a stale policy record. -/
def c9Ev : EvmVault :=
  { owner := 5, paused := false, activeAgents := [4],
    policies := [((4, 0),
      { maxPerTx := 1
        totalPerPeriod := 2
        maxTxPerPeriod := 3
        periodSeconds := 4
        periodStart := 5
        spentThisPeriod := 6
        txCountThisPeriod := 7 })],
    balances := [] }

theorem alookup_aset_self {α β : Type} [DecidableEq α] (k : α) (x : β)
    (l : List (α × β)) : alookup k (aset k x l) = some x := by
  induction l with
  | nil => simp [aset, alookup]
  | cons e r ih =>
    by_cases h : e.1 = k
    · simp [aset, h, alookup]
    · simp [aset, h, alookup, ih]

theorem agetD_aset_self {α : Type} [DecidableEq α] (k : α) (x : Nat)
    (l : List (α × Nat)) : agetD k (aset k x l) = x := by
  simp [agetD, alookup_aset_self]

theorem addU64_of_lt {a b : Nat} (h : a + b < U64) : addU64 a b = some (a + b) := by
  simp [addU64, h]

theorem addU64_of_ge {a b : Nat} (h : U64 ≤ a + b) : addU64 a b = none := by
  simp [addU64, Nat.not_lt.mpr h]

/-- C1 (amended): in the capability-based variant, provided the u64 sums the
call evaluates (periodStart + periodLength during the lazy rollover, and the
running sums of the period-limit and tx-count checks) do not overflow, the
preconditions of execute_payment are checked exactly in the spec's order
with first failure winning: the error of every call equals the first
failure of the spec-side ordered precondition list, so when several listed
preconditions are violated at once the earliest one's error is returned.
Without the proviso an overflowing sum aborts the call with the runtime
arithmetic error instead, which is what the counterexample exhibits. -/
theorem executePayment_error_order (v : Vault) (cap : AgentCap)
    (token recipient amount now : Nat)
    (hnof : ∀ p, alookup (cap.id, token) v.policies = some p →
      p.period_start_ms + p.period_ms < U64 ∧ p.spent_this_period + amount < U64 ∧
      p.tx_count_this_period + 1 < U64) :
    errOf (execute_payment v cap token recipient amount now) =
      specFirstFailure v cap token amount now := by
  unfold execute_payment specFirstFailure
  by_cases h1 : v.paused
  · simp [h1, errOf]
  · simp only [h1, Bool.false_eq_true, if_false]
    by_cases h2 : cap.vault_id = v.id
    · simp only [h2, if_true]
      by_cases h3 : cap.id ∈ v.active_agents
      · simp only [h3, if_true]
        by_cases h4 : 0 < amount
        · simp only [h4, if_true]
          cases hpol : alookup (cap.id, token) v.policies with
          | none => simp [errOf]
          | some p0 =>
            obtain ⟨hn1, hn2, hn3⟩ := hnof p0 hpol
            dsimp only
            rw [addU64_of_lt hn1]
            dsimp only
            by_cases h6 : p0.period_start_ms + p0.period_ms ≤ now
            · rw [if_pos h6]
              dsimp only
              by_cases h7 : amount ≤ p0.max_per_tx
              · rw [if_pos h7, if_pos h7]
                rw [addU64_of_lt (show 0 + amount < U64 by omega)]
                dsimp only
                by_cases h8 : 0 + amount ≤ p0.total_per_period
                · rw [if_pos h8, if_pos h8]
                  rw [addU64_of_lt (show 0 + 1 < U64 by omega)]
                  dsimp only
                  by_cases h9 : 0 + 1 ≤ p0.max_tx_per_period
                  · rw [if_pos h9, if_pos h9]
                    cases hbal : alookup token v.balances with
                    | none =>
                      dsimp only
                      rw [show agetD token v.balances = 0 by simp [agetD, hbal]]
                      rw [if_neg (by omega)]
                      simp [errOf]
                    | some bal =>
                      dsimp only
                      rw [show agetD token v.balances = bal by simp [agetD, hbal]]
                      by_cases h10 : amount ≤ bal
                      · rw [if_pos h10, if_pos h10]; simp [errOf]
                      · rw [if_neg h10, if_neg h10]; simp [errOf]
                  · rw [if_neg h9, if_neg h9]; simp [errOf]
                · rw [if_neg h8, if_neg h8]; simp [errOf]
              · rw [if_neg h7, if_neg h7]; simp [errOf]
            · rw [if_neg h6]
              by_cases h7 : amount ≤ p0.max_per_tx
              · rw [if_pos h7, if_pos h7]
                rw [addU64_of_lt hn2]
                dsimp only
                by_cases h8 : p0.spent_this_period + amount ≤ p0.total_per_period
                · rw [if_pos h8, if_pos h8]
                  rw [addU64_of_lt hn3]
                  dsimp only
                  by_cases h9 : p0.tx_count_this_period + 1 ≤ p0.max_tx_per_period
                  · rw [if_pos h9, if_pos h9]
                    cases hbal : alookup token v.balances with
                    | none =>
                      dsimp only
                      rw [show agetD token v.balances = 0 by simp [agetD, hbal]]
                      rw [if_neg (by omega)]
                      simp [errOf]
                    | some bal =>
                      dsimp only
                      rw [show agetD token v.balances = bal by simp [agetD, hbal]]
                      by_cases h10 : amount ≤ bal
                      · rw [if_pos h10, if_pos h10]; simp [errOf]
                      · rw [if_neg h10, if_neg h10]; simp [errOf]
                  · rw [if_neg h9, if_neg h9]; simp [errOf]
                · rw [if_neg h8, if_neg h8]; simp [errOf]
              · rw [if_neg h7, if_neg h7]; simp [errOf]
        · simp [h4, errOf]
      · simp [h3, errOf]
    · simp [h2, errOf]

/-- C1 witness: a concrete overflow-free call violating both the per-tx
limit (7 > 5) and the balance check (empty Bag), whose error is the first
listed violation ExceedsMaxPerTx. -/
theorem executePayment_error_order_witness :
    errOf (execute_payment wV cap1 0 9 7 0) = specFirstFailure wV cap1 0 7 0 ∧
    specFirstFailure wV cap1 0 7 0 = some .exceedsMaxPerTx :=
  ⟨executePayment_error_order wV cap1 0 9 7 0
    (by intro p hp; injection hp with h; subst h; decide), by decide⟩

/-- C1 counterexample to the unconditional claim: at cxV the call violates
the listed preconditions 7 (amount 7 > maxPerTx 5) and 10 (balance 0 < 7),
so the claim demands ExceedsMaxPerTx, but the u64 sum periodStart +
periodLength overflows during the lazy rollover and the Move runtime aborts
with its arithmetic error instead of any listed error kind. -/
theorem executePayment_order_overflow_counterexample :
    execute_payment cxV cap1 0 9 7 0 = .error .arithOverflow ∧
    specFirstFailure cxV cap1 0 7 0 = some .exceedsMaxPerTx ∧
    execute_payment cxV cap1 0 9 7 0 ≠ .error .exceedsMaxPerTx := by
  refine ⟨by decide, by decide, by decide⟩

/-- C2 (amended): an authorization bound to vault A, presented to a distinct
vault B's execute_payment, fails NotAuthorized for all remaining arguments
and regardless of agent-active status on either vault, provided B is not
paused; when B is paused the call still fails, but with VaultPaused, since
the pause check precedes the binding check (see the counterexample). -/
theorem crossVault_authorization_scoping (A B : Vault) (cap : AgentCap)
    (token recipient amount now : Nat)
    (hbind : cap.vault_id = A.id) (hAB : A.id ≠ B.id) (hpause : B.paused = false) :
    execute_payment B cap token recipient amount now = .error .notAuthorized := by
  unfold execute_payment
  rw [hpause]
  simp only [Bool.false_eq_true, if_false]
  rw [if_neg (show ¬cap.vault_id = B.id by rw [hbind]; exact hAB)]

/-- C2 witness: a capability of vault 1 presented to the unpaused vault 2 on
which its id is even listed as active. -/
theorem crossVault_authorization_scoping_witness :
    cap1.vault_id = wV.id ∧ wV.id ≠ vaultB.id ∧ vaultB.paused = false ∧
    execute_payment vaultB cap1 0 9 5 0 = .error .notAuthorized :=
  ⟨rfl, by decide, rfl,
   crossVault_authorization_scoping wV vaultB cap1 0 9 5 0 rfl (by decide) rfl⟩

/-- C2 counterexample to the unconditional claim: the same foreign
capability presented to vault 2 while vault 2 is paused fails VaultPaused,
not NotAuthorized, because the pause check runs first. -/
theorem crossVault_paused_counterexample :
    cap1.vault_id = wV.id ∧ wV.id ≠ vaultBPaused.id ∧
    execute_payment vaultBPaused cap1 0 9 5 0 = .error .vaultPaused ∧
    execute_payment vaultBPaused cap1 0 9 5 0 ≠ .error .notAuthorized := by
  refine ⟨rfl, by decide, by decide, by decide⟩

theorem remove_agent_not_active {v : Vault} {ocap : OwnerCap} {aid : Nat} {v2 : Vault}
    (h : remove_agent v ocap aid = .ok v2) : aid ∉ v2.active_agents := by
  unfold remove_agent at h
  split at h
  · split at h
    · injection h with h2
      subst h2
      simp [List.mem_filter]
    · simp at h
  · simp at h

theorem deposit_active {v : Vault} {oc : OwnerCap} {t a : Nat} {v2 : Vault}
    (h : deposit v oc t a = .ok v2) : v2.active_agents = v.active_agents := by
  unfold deposit at h
  split at h
  · split at h <;> (injection h with h2; subst h2; rfl)
  · simp at h

theorem withdraw_active {v : Vault} {oc : OwnerCap} {t a : Nat} {v2 : Vault}
    (h : withdraw v oc t a = .ok v2) : v2.active_agents = v.active_agents := by
  unfold withdraw at h
  repeat' split at h
  all_goals first
  | (injection h with h2; subst h2; rfl)
  | simp at h

theorem set_spend_policy_active {v : Vault} {oc : OwnerCap} {aid t a b c d n : Nat}
    {v2 : Vault} (h : set_spend_policy v oc aid t a b c d n = .ok v2) :
    v2.active_agents = v.active_agents := by
  unfold set_spend_policy at h
  repeat' split at h
  all_goals first
  | (injection h with h2; subst h2; rfl)
  | simp at h

theorem remove_spend_policy_active {v : Vault} {oc : OwnerCap} {aid t : Nat}
    {v2 : Vault} (h : remove_spend_policy v oc aid t = .ok v2) :
    v2.active_agents = v.active_agents := by
  unfold remove_spend_policy at h
  repeat' split at h
  all_goals first
  | (injection h with h2; subst h2; rfl)
  | simp at h

theorem pause_active {v : Vault} {oc : OwnerCap} {v2 : Vault}
    (h : pause v oc = .ok v2) : v2.active_agents = v.active_agents := by
  unfold pause at h
  repeat' split at h
  all_goals first
  | (injection h with h2; subst h2; rfl)
  | simp at h

theorem unpause_active {v : Vault} {oc : OwnerCap} {v2 : Vault}
    (h : unpause v oc = .ok v2) : v2.active_agents = v.active_agents := by
  unfold unpause at h
  repeat' split at h
  all_goals first
  | (injection h with h2; subst h2; rfl)
  | simp at h

theorem execute_payment_active {v : Vault} {cap : AgentCap} {t r a n : Nat}
    {v2 : Vault} (h : execute_payment v cap t r a n = .ok v2) :
    v2.active_agents = v.active_agents := by
  unfold execute_payment at h
  repeat' first
  | split at h
  | dsimp only at h
  all_goals first
  | (injection h with h2; subst h2; rfl)
  | simp at h

theorem add_agent_ok {v : Vault} {oc : OwnerCap} {ad f : Nat} {v2 : Vault}
    {cap : AgentCap} (h : add_agent v oc ad f = .ok (v2, cap)) :
    v2.active_agents = f :: v.active_agents := by
  unfold add_agent at h
  repeat' split at h
  all_goals first
  | (injection h with h2; rw [show v2 = (Prod.mk v2 cap).1 from rfl, ← h2])
  | simp at h

theorem runOp_active_preserved (v : Vault) (op : VOp) (aid : Nat)
    (h : aid ∉ v.active_agents) (hop : mintsAgentId op aid = false) :
    aid ∉ (runOp v op).active_agents := by
  cases op with
  | opDeposit oc t a =>
    simp only [runOp, commit]
    cases hr : deposit v oc t a with
    | ok v2 => rw [deposit_active hr]; exact h
    | error e => exact h
  | opWithdraw oc t a =>
    simp only [runOp, commit]
    cases hr : withdraw v oc t a with
    | ok v2 => rw [withdraw_active hr]; exact h
    | error e => exact h
  | opAddAgent oc ad f =>
    simp only [runOp]
    cases hr : add_agent v oc ad f with
    | ok pr =>
      obtain ⟨v2, cap⟩ := pr
      rw [add_agent_ok hr]
      simp only [List.mem_cons, not_or]
      exact ⟨fun heq => (of_decide_eq_false hop) heq.symm, h⟩
    | error e => exact h
  | opRemoveAgent oc aid2 =>
    simp only [runOp, commit]
    cases hr : remove_agent v oc aid2 with
    | ok v2 =>
      unfold remove_agent at hr
      repeat' split at hr
      all_goals first
      | (injection hr with h2; subst h2;
         intro hm; exact h (List.mem_of_mem_filter hm))
      | simp at hr
    | error e => exact h
  | opSetSpendPolicy oc aid2 t a b c d n =>
    simp only [runOp, commit]
    cases hr : set_spend_policy v oc aid2 t a b c d n with
    | ok v2 => rw [set_spend_policy_active hr]; exact h
    | error e => exact h
  | opRemoveSpendPolicy oc aid2 t =>
    simp only [runOp, commit]
    cases hr : remove_spend_policy v oc aid2 t with
    | ok v2 => rw [remove_spend_policy_active hr]; exact h
    | error e => exact h
  | opPause oc =>
    simp only [runOp, commit]
    cases hr : pause v oc with
    | ok v2 => rw [pause_active hr]; exact h
    | error e => exact h
  | opUnpause oc =>
    simp only [runOp, commit]
    cases hr : unpause v oc with
    | ok v2 => rw [unpause_active hr]; exact h
    | error e => exact h
  | opExecutePayment cap t r a n =>
    simp only [runOp, commit]
    cases hr : execute_payment v cap t r a n with
    | ok v2 => rw [execute_payment_active hr]; exact h
    | error e => exact h

theorem runOps_active_preserved (ops : List VOp) : ∀ (v : Vault) (aid : Nat),
    aid ∉ v.active_agents → (∀ op ∈ ops, mintsAgentId op aid = false) →
    aid ∉ (runOps v ops).active_agents := by
  induction ops with
  | nil => intro v aid h _; exact h
  | cons op rest ih =>
    intro v aid h hall
    simp only [runOps]
    exact ih _ _ (runOp_active_preserved v op aid h (hall op (by simp)))
      (fun o ho => hall o (by simp [ho]))

theorem executePayment_inactive_agent (w : Vault) (cap : AgentCap)
    (token recipient amount now : Nat) (hpause : w.paused = false)
    (h : cap.id ∉ w.active_agents) :
    execute_payment w cap token recipient amount now = .error .notAuthorized := by
  unfold execute_payment
  rw [hpause]
  simp only [Bool.false_eq_true, if_false]
  by_cases hb : cap.vault_id = w.id
  · rw [if_pos hb, if_neg h]
  · rw [if_neg hb]

/-- C3 (amended): once remove_agent for an agent id succeeds, every
subsequent execute_payment using that id — across any sequence of further
operations none of which mints an authorization with that id again — fails
NotAuthorized whenever the vault is not paused at call time, even though
the SpendPolicy records for the id are left in storage; if the vault is
paused at call time the call fails VaultPaused instead (counterexample). -/
theorem revocation_finality (v : Vault) (ocap : OwnerCap) (aid : Nat) (v1 : Vault)
    (hrem : remove_agent v ocap aid = .ok v1)
    (ops : List VOp) (hops : ∀ op ∈ ops, mintsAgentId op aid = false)
    (cap : AgentCap) (hcap : cap.id = aid)
    (token recipient amount now : Nat)
    (hpause : (runOps v1 ops).paused = false) :
    execute_payment (runOps v1 ops) cap token recipient amount now =
      .error .notAuthorized := by
  apply executePayment_inactive_agent _ _ _ _ _ _ hpause
  rw [hcap]
  exact runOps_active_preserved ops v1 aid (remove_agent_not_active hrem) hops

/-- C3 witness: remove agent 7 from c3V, run a further deposit, then attempt
a payment with the revoked id while its policy is still stored. -/
theorem revocation_finality_witness :
    remove_agent c3V oc1 7 = .ok c3V1 ∧
    execute_payment (runOps c3V1 [.opDeposit oc1 0 5]) cap7 0 9 5 0 =
      .error .notAuthorized :=
  ⟨by decide,
   revocation_finality c3V oc1 7 c3V1 (by decide) [.opDeposit oc1 0 5]
     (by decide) cap7 rfl 0 9 5 0 (by decide)⟩

/-- C3 counterexample to the unconditional claim: after the successful
removal of agent 7 the owner pauses the vault (no re-activation happens);
the revoked agent's payment attempt then fails VaultPaused, not
NotAuthorized, because the pause check precedes the registry check. -/
theorem revocation_paused_counterexample :
    remove_agent c3V oc1 7 = .ok c3V1 ∧
    pause c3V1 oc1 = .ok c3V2 ∧
    execute_payment c3V2 cap7 0 9 5 0 = .error .vaultPaused ∧
    execute_payment c3V2 cap7 0 9 5 0 ≠ .error .notAuthorized := by
  refine ⟨by decide, by decide, by decide, by decide⟩

/-- C4: an execute_payment call that aborts with any error kind commits no
effect: under the ledger's transactional semantics the post-state equals the
pre-state, so balances, the policy records (hence spentThisPeriod,
txCountThisPeriod and periodStart, including any tentative lazy reset) and
activeAgents are all unchanged. -/
theorem executePayment_abort_preserves_state (v : Vault) (cap : AgentCap)
    (token recipient amount now : Nat) (e : VErr)
    (h : execute_payment v cap token recipient amount now = .error e) :
    runOp v (.opExecutePayment cap token recipient amount now) = v := by
  simp [runOp, commit, h]

/-- C4 witness: a zero-amount call on wV aborts and leaves the state
untouched. -/
theorem executePayment_abort_preserves_state_witness :
    execute_payment wV cap1 0 9 0 0 = .error .zeroAmount ∧
    runOp wV (.opExecutePayment cap1 0 9 0 0) = wV :=
  ⟨by decide,
   executePayment_abort_preserves_state wV cap1 0 9 0 0 .zeroAmount (by decide)⟩

/-- C5: when now is at or past periodStart + periodLength of the matching
policy, the three limit checks are evaluated against reset counters
(spentThisPeriod = 0, txCountThisPeriod = 0): the per-tx error depends only
on maxPerTx, the period-limit error happens exactly when amount alone
exceeds totalPerPeriod, the count error exactly when maxTxPerPeriod = 0;
and on success the stored policy has periodStart = now (with the counters
restarted at amount and 1). -/
theorem period_rollover_resets_counters (v : Vault) (cap : AgentCap)
    (token recipient amount now : Nat) (p : SpendPolicy)
    (hp : v.paused = false) (hb : cap.vault_id = v.id)
    (ha : cap.id ∈ v.active_agents)
    (hpol : alookup (cap.id, token) v.policies = some p)
    (hroll : p.period_start_ms + p.period_ms ≤ now)
    (hnow : now < U64) (hamt : 0 < amount) (hamt2 : amount < U64) :
    (execute_payment v cap token recipient amount now = .error .exceedsMaxPerTx
      ↔ p.max_per_tx < amount) ∧
    (execute_payment v cap token recipient amount now = .error .exceedsPeriodLimit
      ↔ amount ≤ p.max_per_tx ∧ p.total_per_period < amount) ∧
    (execute_payment v cap token recipient amount now = .error .exceedsTxCount
      ↔ amount ≤ p.max_per_tx ∧ amount ≤ p.total_per_period ∧
        p.max_tx_per_period = 0) ∧
    (∀ v2, execute_payment v cap token recipient amount now = .ok v2 →
      alookup (cap.id, token) v2.policies = some
        { p with
          period_start_ms := now
          spent_this_period := amount
          tx_count_this_period := 1 }) := by
  unfold execute_payment
  rw [hp]
  simp only [Bool.false_eq_true, if_false, hb, if_true]
  simp only [ha, if_true, hamt, if_true, hpol]
  try dsimp only
  rw [addU64_of_lt (by omega)]
  try dsimp only
  rw [if_pos hroll]
  try dsimp only
  rw [addU64_of_lt (show 0 + amount < U64 by omega),
      addU64_of_lt (show 0 + 1 < U64 by omega)]
  try dsimp only
  by_cases h7 : amount ≤ p.max_per_tx
  · rw [if_pos h7]
    by_cases h8 : 0 + amount ≤ p.total_per_period
    · rw [if_pos h8]
      by_cases h9 : 0 + 1 ≤ p.max_tx_per_period
      · rw [if_pos h9]
        cases hbal : alookup token v.balances with
        | none =>
          dsimp only
          refine ⟨by simp; omega, by simp; omega, by simp; omega, ?_⟩
          intro v2 hv2
          simp at hv2
        | some bal =>
          dsimp only
          by_cases h10 : amount ≤ bal
          · rw [if_pos h10]
            refine ⟨by simp; omega, by simp; omega, by simp; omega, ?_⟩
            intro v2 hv2
            injection hv2 with h2
            subst h2
            simp only [alookup_aset_self, Option.some.injEq]
            have : 0 + amount = amount := by omega
            rw [this]
          · rw [if_neg h10]
            refine ⟨by simp; omega, by simp; omega, by simp; omega, ?_⟩
            intro v2 hv2
            simp at hv2
      · rw [if_neg h9]
        refine ⟨by simp; omega, by simp; omega, by simp; omega, ?_⟩
        intro v2 hv2
        simp at hv2
    · rw [if_neg h8]
      refine ⟨by simp; omega, by simp; omega, by simp; omega, ?_⟩
      intro v2 hv2
      simp at hv2
  · rw [if_neg h7]
    refine ⟨by simp; omega, by simp; omega, by simp; omega, ?_⟩
    intro v2 hv2
    simp at hv2

/-- C5 witness: at time 10 the window of c5Pol (start 0, length 10) has
lapsed; despite stale counters already at the limits, the payment of 1000
succeeds and the stored policy restarts at periodStart 10, spent 1000,
count 1. -/
theorem period_rollover_resets_counters_witness :
    execute_payment c5V cap1 0 9 1000 10 = .ok c5V2 ∧
    alookup (1, 0) c5V2.policies = some
      { c5Pol with
        period_start_ms := 10
        spent_this_period := 1000
        tx_count_this_period := 1 } :=
  ⟨by decide,
   (period_rollover_resets_counters c5V cap1 0 9 1000 10 c5Pol rfl rfl
      (by decide) (by decide) (by decide) (by decide) (by decide)
      (by decide)).2.2.2 c5V2 (by decide)⟩

/-- C6: scenario 1.  From a vault with 10000 of asset 0, an active agent and
policy maxPerTx 1000 / totalPerPeriod 5000 / maxTxPerPeriod 10 set, five
payments of 1000 within the period all succeed, the remaining balance is
5000 and spentThisPeriod is 5000; a sixth payment of 1 in the same period
fails ExceedsPeriodLimit. -/
theorem scenario_period_limit :
    execute_payment scnV3 scnCap 0 9 1000 0 = .ok scnV4 ∧
    execute_payment scnV4 scnCap 0 9 1000 0 = .ok scnV5 ∧
    execute_payment scnV5 scnCap 0 9 1000 0 = .ok scnV6 ∧
    execute_payment scnV6 scnCap 0 9 1000 0 = .ok scnV7 ∧
    execute_payment scnV7 scnCap 0 9 1000 0 = .ok scnV8 ∧
    agetD 0 scnV8.balances = 5000 ∧
    (alookup (42, 0) scnV8.policies).map SpendPolicy.spent_this_period = some 5000 ∧
    execute_payment scnV8 scnCap 0 9 1 0 = .error .exceedsPeriodLimit := by
  refine ⟨by decide, by decide, by decide, by decide, by decide, by decide,
    by decide, by decide⟩

/-- C7 (amended): in the account-based variant addAgent for a currently
active agent address fails AgentAlreadyActive; in the capability-based
variant add_agent always mints a fresh capability id and succeeds even when
the same agent address already holds an active authorization — its
AgentAlreadyActive assert only guards the fresh id against collision (see
the counterexample). -/
theorem addAgent_already_active :
    (∀ (ev : EvmVault) (agent : Nat), agent ≠ 0 → agent ∈ ev.activeAgents →
      evmAddAgent ev ev.owner agent = .error .agentAlreadyActive) ∧
    (∀ (v : Vault) (oc : OwnerCap) (addr fresh : Nat), oc.vault_id = v.id →
      fresh ∉ v.active_agents →
      add_agent v oc addr fresh =
        .ok ({ v with active_agents := fresh :: v.active_agents },
             { id := fresh, vault_id := v.id })) := by
  constructor
  · intro ev agent h0 hact
    unfold evmAddAgent
    rw [if_pos rfl, if_neg h0, if_pos hact]
  · intro v oc addr fresh hoc hfr
    unfold add_agent
    rw [if_pos hoc, if_neg hfr]

/-- C7 witness: address 3 is active on evW, so re-adding it fails
AgentAlreadyActive; and a Move add_agent with a fresh id succeeds. -/
theorem addAgent_already_active_witness :
    evmAddAgent evW evW.owner 3 = .error .agentAlreadyActive ∧
    add_agent scnV0 oc1 77 42 =
      .ok ({ scnV0 with active_agents := [42] }, { id := 42, vault_id := 1 }) :=
  ⟨addAgent_already_active.1 evW 3 (by decide) (by decide),
   addAgent_already_active.2 scnV0 oc1 77 42 rfl (by decide)⟩

/-- C7 counterexample: on c7V the agent address 77 already holds the
currently active authorization id 10, yet add_agent for the same address
77 does not fail AgentAlreadyActive — it succeeds and mints a second
active authorization (id 11), because the Move registry keys on the fresh
capability id, never on the agent address. -/
theorem add_agent_second_active_counterexample :
    add_agent c7V oc1 77 11 =
      .ok ({ c7V with active_agents := [11, 10] }, { id := 11, vault_id := 1 }) ∧
    add_agent c7V oc1 77 11 ≠ .error .agentAlreadyActive := by
  refine ⟨by decide, by decide⟩

/-- C8 (amended): in the account-based variant deposit with amount 0 fails
ZeroAmount (leaving state untouched by revert semantics) and a positive
deposit succeeds and raises the tracked balance by the amount; the
capability-based variant has no zero-amount check on deposit — every
owner-authorized deposit succeeds, including one of a zero-value coin
(see the counterexample). -/
theorem deposit_zero_amount_check :
    (∀ (ev : EvmVault) (token : Nat),
      evmDeposit ev ev.owner token 0 = .error .zeroAmount) ∧
    (∀ (ev : EvmVault) (token amount : Nat), 0 < amount →
      ∃ ev2, evmDeposit ev ev.owner token amount = .ok ev2 ∧
        agetD token ev2.balances = agetD token ev.balances + amount) ∧
    (∀ (v : Vault) (oc : OwnerCap) (token amount : Nat), oc.vault_id = v.id →
      ∃ v2, deposit v oc token amount = .ok v2 ∧
        agetD token v2.balances = agetD token v.balances + amount) := by
  refine ⟨?_, ?_, ?_⟩
  · intro ev token
    unfold evmDeposit
    rw [if_pos rfl, if_pos rfl]
  · intro ev token amount h
    unfold evmDeposit
    rw [if_pos rfl, if_neg (by omega)]
    exact ⟨_, rfl, by rw [agetD_aset_self]⟩
  · intro v oc token amount hoc
    unfold deposit
    rw [if_pos hoc]
    cases hbal : alookup token v.balances with
    | some bal =>
      refine ⟨_, rfl, ?_⟩
      rw [agetD_aset_self]
      simp [agetD, hbal]
    | none =>
      refine ⟨_, rfl, ?_⟩
      rw [agetD_aset_self]
      simp [agetD, hbal]

/-- C8 witness: the EVM vault rejects a zero deposit and accepts a deposit
of 5 on token 7 (balance 100 to 105); the Move vault accepts an
owner-authorized deposit even of amount 0. -/
theorem deposit_zero_amount_check_witness :
    evmDeposit evW evW.owner 7 0 = .error .zeroAmount ∧
    (∃ ev2, evmDeposit evW evW.owner 7 5 = .ok ev2 ∧
      agetD 7 ev2.balances = agetD 7 evW.balances + 5) ∧
    (∃ v2, deposit scnV0 oc1 7 0 = .ok v2 ∧
      agetD 7 v2.balances = agetD 7 scnV0.balances + 0) :=
  ⟨deposit_zero_amount_check.1 evW 7,
   deposit_zero_amount_check.2.1 evW 7 5 (by decide),
   deposit_zero_amount_check.2.2 scnV0 oc1 7 0 rfl⟩

/-- C8 counterexample: the Move deposit of a zero-value coin does not fail
ZeroAmount — it succeeds, and even installs a fresh zero Bag entry for a
token not seen before, changing the tracked balances map. -/
theorem deposit_zero_accepted_counterexample :
    deposit scnV0 oc1 7 0 = .ok { scnV0 with balances := [(7, 0)] } ∧
    deposit scnV0 oc1 7 0 ≠ .error .zeroAmount := by
  refine ⟨by decide, by decide⟩

/-- C9: in both variants an owner-authorized setSpendPolicy fails
AgentNotActive when the agent is not currently active, and otherwise fully
overwrites the (agentId, assetId) record: the stored policy afterwards has
exactly the new limits with spentThisPeriod 0, txCountThisPeriod 0 and
periodStart = now, irrespective of any prior usage in the replaced
record. -/
theorem setSpendPolicy_full_overwrite :
    (∀ (v : Vault) (oc : OwnerCap) (aid token a b c d now : Nat),
      oc.vault_id = v.id →
      (aid ∉ v.active_agents →
        set_spend_policy v oc aid token a b c d now = .error .agentNotActive) ∧
      (aid ∈ v.active_agents →
        ∃ v2, set_spend_policy v oc aid token a b c d now = .ok v2 ∧
          alookup (aid, token) v2.policies = some
            { max_per_tx := a
              total_per_period := b
              max_tx_per_period := c
              period_ms := d
              period_start_ms := now
              spent_this_period := 0
              tx_count_this_period := 0 })) ∧
    (∀ (ev : EvmVault) (agent token a b c d now : Nat),
      (agent ∉ ev.activeAgents →
        evmSetSpendPolicy ev ev.owner agent token a b c d now =
          .error .agentNotActive) ∧
      (agent ∈ ev.activeAgents →
        ∃ ev2, evmSetSpendPolicy ev ev.owner agent token a b c d now = .ok ev2 ∧
          alookup (agent, token) ev2.policies = some
            { maxPerTx := a
              totalPerPeriod := b
              maxTxPerPeriod := c
              periodSeconds := d
              periodStart := now
              spentThisPeriod := 0
              txCountThisPeriod := 0 })) := by
  constructor
  · intro v oc aid token a b c d now hoc
    constructor
    · intro hin
      unfold set_spend_policy
      rw [if_pos hoc, if_neg hin]
    · intro hin
      unfold set_spend_policy
      rw [if_pos hoc, if_pos hin]
      dsimp only
      exact ⟨_, rfl, by rw [alookup_aset_self]⟩
  · intro ev agent token a b c d now
    constructor
    · intro hin
      unfold evmSetSpendPolicy
      rw [if_pos rfl, if_neg hin]
    · intro hin
      unfold evmSetSpendPolicy
      rw [if_pos rfl, if_pos hin]
      dsimp only
      exact ⟨_, rfl, by rw [alookup_aset_self]⟩

/-- C9 witness: on c9V and c9Ev, whose (4, 0) records hold nonzero stale
usage, the overwrite at time 99 stores zeroed counters and periodStart 99;
and setSpendPolicy for the inactive id 9 fails AgentNotActive. -/
theorem setSpendPolicy_full_overwrite_witness :
    set_spend_policy c9V oc1 9 0 1 2 3 4 99 = .error .agentNotActive ∧
    (∃ v2, set_spend_policy c9V oc1 4 0 1 2 3 4 99 = .ok v2 ∧
      alookup (4, 0) v2.policies = some
        { max_per_tx := 1
          total_per_period := 2
          max_tx_per_period := 3
          period_ms := 4
          period_start_ms := 99
          spent_this_period := 0
          tx_count_this_period := 0 }) ∧
    (∃ ev2, evmSetSpendPolicy c9Ev c9Ev.owner 4 0 1 2 3 4 99 = .ok ev2 ∧
      alookup (4, 0) ev2.policies = some
        { maxPerTx := 1
          totalPerPeriod := 2
          maxTxPerPeriod := 3
          periodSeconds := 4
          periodStart := 99
          spentThisPeriod := 0
          txCountThisPeriod := 0 }) :=
  ⟨((setSpendPolicy_full_overwrite.1 c9V oc1 9 0 1 2 3 4 99 rfl).1 (by decide)),
   (setSpendPolicy_full_overwrite.1 c9V oc1 4 0 1 2 3 4 99 rfl).2 (by decide),
   (setSpendPolicy_full_overwrite.2 c9Ev 4 0 1 2 3 4 99).2 (by decide)⟩

/-- C10: in the account-based variant every executePayment whose recipient
is the zero address fails ZeroAddress, and this check sits after the pause,
authorization and zero-amount checks and before the policy lookup (the
ZeroAddress conclusion needs no policy hypothesis); the capability-based
variant has no such precondition — its execute_payment never returns
ZeroAddress. -/
theorem evm_zero_address_precondition :
    (∀ (ev : EvmVault) (sender token recipient amount now : Nat),
      (ev.paused = true →
        evmExecutePayment ev sender token recipient amount now =
          .error .vaultPaused) ∧
      (ev.paused = false → sender ∉ ev.activeAgents →
        evmExecutePayment ev sender token recipient amount now =
          .error .notAuthorized) ∧
      (ev.paused = false → sender ∈ ev.activeAgents → amount = 0 →
        evmExecutePayment ev sender token recipient amount now =
          .error .zeroAmount) ∧
      (ev.paused = false → sender ∈ ev.activeAgents → 0 < amount →
        recipient = 0 →
        evmExecutePayment ev sender token recipient amount now =
          .error .zeroAddress)) ∧
    (∀ (v : Vault) (cap : AgentCap) (token recipient amount now : Nat),
      execute_payment v cap token recipient amount now ≠
        .error .zeroAddress) := by
  constructor
  · intro ev sender token recipient amount now
    refine ⟨?_, ?_, ?_, ?_⟩
    · intro hp
      unfold evmExecutePayment
      rw [hp]
      rw [if_pos rfl]
    · intro hp hs
      unfold evmExecutePayment
      rw [hp]
      simp only [Bool.false_eq_true, if_false]
      rw [if_neg hs]
    · intro hp hs ha
      unfold evmExecutePayment
      rw [hp]
      simp only [Bool.false_eq_true, if_false]
      rw [if_pos hs, if_pos ha]
    · intro hp hs ha hr
      unfold evmExecutePayment
      rw [hp]
      simp only [Bool.false_eq_true, if_false]
      rw [if_pos hs, if_neg (by omega), if_pos hr]
  · intro v cap token recipient amount now
    unfold execute_payment
    repeat' first
    | split
    | dsimp only
    all_goals simp

/-- C10 witness: concrete calls on evW and its paused copy exercising each
of the four orderings, plus a Move call showing no ZeroAddress. -/
theorem evm_zero_address_precondition_witness :
    evmExecutePayment evWPaused 3 7 0 5 0 = .error .vaultPaused ∧
    evmExecutePayment evW 4 7 0 5 0 = .error .notAuthorized ∧
    evmExecutePayment evW 3 7 0 0 0 = .error .zeroAmount ∧
    evmExecutePayment evW 3 7 0 5 0 = .error .zeroAddress ∧
    execute_payment wV cap1 0 0 7 0 ≠ .error .zeroAddress :=
  ⟨(evm_zero_address_precondition.1 evWPaused 3 7 0 5 0).1 rfl,
   (evm_zero_address_precondition.1 evW 4 7 0 5 0).2.1 rfl (by decide),
   (evm_zero_address_precondition.1 evW 3 7 0 0 0).2.2.1 rfl (by decide) rfl,
   (evm_zero_address_precondition.1 evW 3 7 0 5 0).2.2.2 rfl (by decide)
     (by decide) rfl,
   evm_zero_address_precondition.2 wV cap1 0 0 7 0⟩

end DueVault
